import Mathlib

/-!
Verification of the go-daemon repository (frostyplanet/go-daemon) against its
natural-language specification.  The Go sources `util_posix.go` and
`daemon_posix.go` are shallowly embedded: every operating-system interaction
(readlink, stat, file opening, process spawn, syscalls) is abstracted into an
explicit environment record whose fields give the outcome of each interaction,
and the functions themselves are translated line by line into pure Lean
definitions over those environments.
-/

namespace GoDaemon

/-- Errors returned by the modelled operating-system and library calls.
`errInvalid` stands for Go's `os.ErrInvalid`. -/
inductive GoError where
  | errInvalid
  | ioErr (msg : String)
deriving DecidableEq, Repr

deriving instance DecidableEq for Except

/-- Go's `strings.TrimRight(s, cutset)`: removes trailing characters of `s`
that occur anywhere in `cutset` (a character SET, not a suffix). -/
def goTrimRight (s cutset : String) : String :=
  String.mk ((s.data.reverse.dropWhile (fun c => cutset.data.contains c)).reverse)

/-- The path `fmt.Sprintf("/proc/%d/exe", pid)` built in `GetExecPath`. -/
def procExeLink (pid : Nat) : String :=
  "/proc/" ++ toString pid ++ "/exe"

/-- The path `fmt.Sprintf("/proc/%d/stat", pid)` built in `IsProcessRunning`. -/
def procStatPath (pid : Nat) : String :=
  "/proc/" ++ toString pid ++ "/stat"

/-- Abstraction of the `/proc` filesystem and of the calling process's
identity, as observed through the OS calls used by `util_posix.go`:
`os.Readlink`, `os.Stat(..).ModTime().Unix()` (in seconds), file-content
reads, and `os.Getpid()`. -/
structure ProcFS where
  readlink : String → Except GoError String
  statMTime : String → Except GoError Int
  readFile : String → Except GoError String
  myPid : Nat

/-- `GetExecPath` from `util_posix.go`: read the `/proc/<pid>/exe` link and
apply `strings.TrimRight(link_target, " (deleted)")` to the target. -/
def GetExecPath (fs : ProcFS) (pid : Nat) : Except GoError String :=
  match fs.readlink (procExeLink pid) with
  | Except.error e => Except.error e
  | Except.ok link_target => Except.ok (goTrimRight link_target " (deleted)")

/-- The time-heuristic fallback of `IsProcessRunning` (lines 37-45 of
`util_posix.go`): stat the pid file and `/proc/<pid>/stat`, fail closed on
either error, otherwise compare the modification times with a strict
60-second tolerance (`math.Abs(float64(time_diff)) < 60.0`; the difference of
two Unix-second values is an integer, so the comparison is `|t1 - t2| < 60`
over the integers). -/
def timeHeuristic (fs : ProcFS) (pid : Nat) (pidfile : String) : Bool :=
  match fs.statMTime pidfile with
  | Except.error _ => false
  | Except.ok t1 =>
    match fs.statMTime (procStatPath pid) with
    | Except.error _ => false
    | Except.ok t2 => decide ((t1 - t2).natAbs < 60)

/-- `IsProcessRunning` from `util_posix.go`, translated line by line:
resolve the caller's own executable path, resolve the target pid's path,
fail closed on either error; equal paths mean running; on a mismatch, if a
pid-file hint was supplied, apply the time heuristic on the first hint,
otherwise report not running. -/
def IsProcessRunning (fs : ProcFS) (pid : Nat) (pidfiles : List String) : Bool :=
  match GetExecPath fs fs.myPid with
  | Except.error _ => false
  | Except.ok my_path =>
    match GetExecPath fs pid with
    | Except.error _ => false
    | Except.ok exe_path =>
      if my_path = exe_path then true
      else
        match pidfiles with
        | [] => false
        | pidfile :: _ => timeHeuristic fs pid pidfile

/-- Strip one layer of enclosing parenthesis characters, as the specification
describes for the kernel's `comm` field in `/proc/<pid>/stat`. -/
def stripParens (s : String) : String :=
  String.mk (((s.data.dropWhile (fun c => c = '(')).reverse.dropWhile
    (fun c => c = ')')).reverse)

/-- Split a character list at every occurrence of `sep` (an executable
splitter used by the spec-modelled helpers below). -/
def splitCharAux (sep : Char) : List Char → List Char → List (List Char)
  | [], acc => [acc.reverse]
  | c :: rest, acc =>
    if c = sep then acc.reverse :: splitCharAux sep rest []
    else splitCharAux sep rest (c :: acc)

/-- Second whitespace-delimited field of a process-status line, with the
enclosing parentheses stripped (the specification's description of the
executable short name). -/
def commOfStat (content : String) : Option String :=
  match (splitCharAux ' ' content.data []).get? 1 with
  | none => none
  | some f => some (stripParens (String.mk f))

/-- Base name of a slash-separated path (the component after the last `/`). -/
def baseName (p : String) : String :=
  String.mk ((splitCharAux '/' p.data []).getLastD p.data)

/-- Modelled from the spec (§4.2 fallback), for comparison against the source:
on a path mismatch with a pid-file hint supplied, first read the pid's
process-status pseudo-file, extract the executable short name, and compare it
to the base name of the caller's own executable path; only if that does not
confirm identity, apply the time heuristic.  This status-file short-name
comparison does not exist in `util_posix.go`. -/
def IsProcessRunningSpec (fs : ProcFS) (pid : Nat) (pidfiles : List String) : Bool :=
  match GetExecPath fs fs.myPid with
  | Except.error _ => false
  | Except.ok my_path =>
    match GetExecPath fs pid with
    | Except.error _ => false
    | Except.ok exe_path =>
      if my_path = exe_path then true
      else
        match pidfiles with
        | [] => false
        | pidfile :: _ =>
          match fs.readFile (procStatPath pid) with
          | Except.error _ => false
          | Except.ok content =>
            if commOfStat content = some (baseName my_path) then true
            else timeHeuristic fs pid pidfile

/-- `syscall.Credential` as used by `daemon_posix.go` (uid/gid are `uint32`;
only their zero/non-zero status and values matter here, so `Nat` is used). -/
structure Credential where
  Uid : Nat
  Gid : Nat
  Groups : List Nat
  NoSetGroups : Bool
deriving DecidableEq, Repr

/-- The `Context` struct of `daemon_posix.go`.  The first ten fields are the
exported (serializable) declarative fields; the remaining lowercase fields
are the transient runtime resources (`abspath`, `pidFile`, `logFile`,
`nullFile`, `rpipe`, `wpipe`), with open files abstracted as optional
numeric handles. -/
structure Context where
  PidFileName : String
  PidFilePerm : Nat
  LogFileName : String
  LogFilePerm : Nat
  WorkDir : String
  Chroot : String
  Env : List String
  Args : List String
  Credential : Option Credential
  Umask : Int
  abspath : String
  pidFile : Option Nat
  logFile : Option Nat
  nullFile : Option Nat
  rpipe : Option Nat
  wpipe : Option Nat
deriving DecidableEq, Repr

/-- The declarative configuration fields of a `Context` (exactly the exported
fields of the Go struct). -/
structure DeclFields where
  PidFileName : String
  PidFilePerm : Nat
  LogFileName : String
  LogFilePerm : Nat
  WorkDir : String
  Chroot : String
  Env : List String
  Args : List String
  Credential : Option Credential
  Umask : Int
deriving DecidableEq, Repr

/-- Projection of a `Context` onto its declarative fields. -/
def declOf (d : Context) : DeclFields :=
  { PidFileName := d.PidFileName
    PidFilePerm := d.PidFilePerm
    LogFileName := d.LogFileName
    LogFilePerm := d.LogFilePerm
    WorkDir := d.WorkDir
    Chroot := d.Chroot
    Env := d.Env
    Args := d.Args
    Credential := d.Credential
    Umask := d.Umask }

/-- The content of `json.NewEncoder(d.wpipe).Encode(d)`: Go's `encoding/json`
marshals exactly the exported fields of `Context`, so the wire form carries
exactly the declarative fields and nothing else. -/
def encodeWire (d : Context) : DeclFields :=
  { PidFileName := d.PidFileName
    PidFilePerm := d.PidFilePerm
    LogFileName := d.LogFileName
    LogFilePerm := d.LogFilePerm
    WorkDir := d.WorkDir
    Chroot := d.Chroot
    Env := d.Env
    Args := d.Args
    Credential := d.Credential
    Umask := d.Umask }

/-- `json.NewDecoder(os.Stdin).Decode(d)` on the child side: every exported
field of the receiver is overwritten from the wire message (the encoder
always emits all of them), the unexported fields are untouched. -/
def decodeWire (m : DeclFields) (d : Context) : Context :=
  { d with
    PidFileName := m.PidFileName
    PidFilePerm := m.PidFilePerm
    LogFileName := m.LogFileName
    LogFilePerm := m.LogFilePerm
    WorkDir := m.WorkDir
    Chroot := m.Chroot
    Env := m.Env
    Args := m.Args
    Credential := m.Credential
    Umask := m.Umask }

/-- `MARK_NAME` from `daemon_posix.go`. -/
def MARK_NAME : String := "_GO_DAEMON"

/-- `MARK_VALUE` from `daemon_posix.go`. -/
def MARK_VALUE : String := "1"

/-- The detachment-marker environment entry `_GO_DAEMON=1` appended by
`prepareEnv`. -/
def markString : String := MARK_NAME ++ "=" ++ MARK_VALUE

/-- `FILE_PERM = os.FileMode(0640)`. -/
def FILE_PERM : Nat := 0o640

/-- The field updates of `prepareEnv` (lines 177-194): record the resolved
executable path, default `Args` to `os.Args` when empty, default `Env` to
`os.Environ()` when empty, and append the detachment marker to `Env`. -/
def prepareEnvFields (osArgs environ : List String) (ap : String) (d : Context) : Context :=
  let d1 := { d with abspath := ap }
  let d2 := if d1.Args = [] then { d1 with Args := osArgs } else d1
  let d3 := if d2.Env = [] then { d2 with Env := environ } else d2
  { d3 with Env := d3.Env ++ [markString] }

/-- The permission-defaulting field updates of `openFiles` (lines 128-133):
a zero pid-file or log-file permission becomes `FILE_PERM`. -/
def openFilesPerms (d : Context) : Context :=
  let d1 := if d.PidFilePerm = 0 then { d with PidFilePerm := FILE_PERM } else d
  if d1.LogFilePerm = 0 then { d1 with LogFilePerm := FILE_PERM } else d1

/-- The wire message the parent writes on the handoff pipe for a caller
context `d`: `parent` runs `prepareEnv`, then `openFiles` (which defaults the
permissions), then encodes the resulting context. -/
def parentHandoff (osArgs environ : List String) (ap : String) (d : Context) : DeclFields :=
  encodeWire (openFilesPerms (prepareEnvFields osArgs environ ap d))

/-- Outcomes of the operating-system and library calls made along the parent
path of `Reborn` (`parent`, `prepareEnv`, `openFiles`), plus the parent's
ambient `os.Args`/`os.Environ()`.  Each field gives the result the
corresponding call would return if reached. -/
structure ParentEnv where
  execRes : Except GoError String
  nullRes : Except GoError Unit
  pidOpenRes : Except GoError Unit
  pidLockRes : Except GoError Unit
  logRes : Except GoError Unit
  pipeRes : Except GoError Unit
  startRes : Except GoError Nat
  encodeRes : Option GoError
  environ : List String
  osArgs : List String
deriving DecidableEq, Repr

/-- How one invocation of `parent` terminates.  `panicked e released removed`
means the function panicked with error `e`; `released` records whether the
deferred `closeFiles` ran during unwinding, `removed` whether the pid file
was removed first.  `returned child errRes released` is a normal return
(`child` is the spawned-process handle, `errRes` the returned error). -/
inductive ParentOutcome where
  | panicked (e : GoError) (released : Bool) (pidRemoved : Bool)
  | returned (child : Option Nat) (errRes : Option GoError) (released : Bool)
deriving DecidableEq, Repr

/-- The parent path of `Reborn` (`parent`, lines 96-125), step by step:
`prepareEnv` panics on a failed executable-path resolution (before the
deferred `closeFiles` is registered); `openFiles` opens the null device, then
(when a pid-file name is set) opens and locks the pid file, then (when a log
file name is set) opens the log file, then creates the pipe, and `parent`
panics on any of these failures (with `closeFiles` running via `defer`);
a spawn failure removes the pid file when one was opened, then panics;
otherwise the handle and the encode result are returned. -/
def parentRun (env : ParentEnv) (d : Context) : ParentOutcome :=
  match env.execRes with
  | Except.error e => ParentOutcome.panicked e false false
  | Except.ok _ =>
    match env.nullRes with
    | Except.error e => ParentOutcome.panicked e true false
    | Except.ok _ =>
      match (if d.PidFileName = "" then Except.ok () else env.pidOpenRes) with
      | Except.error e => ParentOutcome.panicked e true false
      | Except.ok _ =>
        match (if d.PidFileName = "" then Except.ok () else env.pidLockRes) with
        | Except.error e => ParentOutcome.panicked e true false
        | Except.ok _ =>
          match (if d.LogFileName = "" then Except.ok () else env.logRes) with
          | Except.error e => ParentOutcome.panicked e true false
          | Except.ok _ =>
            match env.pipeRes with
            | Except.error e => ParentOutcome.panicked e true false
            | Except.ok _ =>
              match env.startRes with
              | Except.error e =>
                  ParentOutcome.panicked e true (if d.PidFileName = "" then false else true)
              | Except.ok h => ParentOutcome.returned (some h) env.encodeRes true

/-- The side-effecting steps the child path can perform, in the order the
source issues them. -/
inductive ChildAct where
  | decodeStdin
  | close0
  | dup2 (src dst : Nat)
  | writePid
  | setUmask (m : Int)
  | chrootTo (p : String)
  | setgid (g : Nat)
  | setuid (u : Nat)
deriving DecidableEq, Repr

/-- Outcomes of the calls made along the child path of `Reborn`:
the JSON decode of the handoff message (yielding the decoded `Context` on
success), `syscall.Close(0)`, `syscall.Dup2(3, 0)`, `pidFile.WritePid()`,
`syscall.Chroot`, `syscall.Setgid`, `syscall.Setuid`. -/
structure ChildEnv where
  decodeRes : Except GoError Context
  close0Res : Except GoError Unit
  dup2Res : Except GoError Unit
  writePidRes : Except GoError Unit
  chrootRes : Except GoError Unit
  setgidRes : Except GoError Unit
  setuidRes : Except GoError Unit
deriving DecidableEq, Repr

/-- The pid-file step of `child` (lines 235-240): skipped when no pid-file
name is configured, otherwise `WritePid` is attempted and its failure is
returned. -/
def pidStage (d : Context) (r : Except GoError Unit) : Option GoError × List ChildAct :=
  if d.PidFileName = "" then (none, [])
  else
    match r with
    | Except.ok _ => (none, [ChildAct.writePid])
    | Except.error e => (some e, [ChildAct.writePid])

/-- The umask step of `child` (lines 242-244): applied only when non-zero,
and `syscall.Umask` cannot fail. -/
def umaskActs (d : Context) : List ChildAct :=
  if d.Umask = 0 then [] else [ChildAct.setUmask d.Umask]

/-- The chroot step of `child` (lines 245-247): skipped when no chroot path
is configured; on failure the error is recorded in `err` but the function
does NOT return — execution continues into the credential step. -/
def chrootStage (d : Context) (r : Except GoError Unit) : Option GoError × List ChildAct :=
  if d.Chroot = "" then (none, [])
  else
    match r with
    | Except.ok _ => (none, [ChildAct.chrootTo d.Chroot])
    | Except.error e => (some e, [ChildAct.chrootTo d.Chroot])

/-- The credential step of `child` (lines 248-259).  `errIn` is the `err`
value carried in from the chroot step.  A configured gid is applied first and
only when non-zero; a failure returns it, a success overwrites `err` with
nil.  Then a configured non-zero uid is applied the same way.  The final
`err` is returned by `child`. -/
def credStage (c : Option Credential) (errIn : Option GoError)
    (gr ur : Except GoError Unit) : Option GoError × List ChildAct :=
  match c with
  | none => (errIn, [])
  | some c =>
    if 0 < c.Gid then
      match gr with
      | Except.error e => (some e, [ChildAct.setgid c.Gid])
      | Except.ok _ =>
        if 0 < c.Uid then
          match ur with
          | Except.error e => (some e, [ChildAct.setgid c.Gid, ChildAct.setuid c.Uid])
          | Except.ok _ => (none, [ChildAct.setgid c.Gid, ChildAct.setuid c.Uid])
        else (none, [ChildAct.setgid c.Gid])
    else
      if 0 < c.Uid then
        match ur with
        | Except.error e => (some e, [ChildAct.setuid c.Uid])
        | Except.ok _ => (none, [ChildAct.setuid c.Uid])
      else (errIn, [])

/-- The tail of the child body once the decoded context `d` is available and
the descriptor rewiring succeeded (lines 235-261): pid-file write (whose
failure returns), then umask, chroot and credential in source order. -/
def childRest (env : ChildEnv) (d : Context) : Option GoError × List ChildAct :=
  match pidStage d env.writePidRes with
  | (some e, pacts) => (some e, pacts)
  | (none, pacts) =>
      ((credStage d.Credential (chrootStage d env.chrootRes).1
          env.setgidRes env.setuidRes).1,
        pacts ++ umaskActs d ++ (chrootStage d env.chrootRes).2
        ++ (credStage d.Credential (chrootStage d env.chrootRes).1
              env.setgidRes env.setuidRes).2)

/-- The body of `child` after the double-initialization guard (lines
223-261): decode, close fd 0, dup fd 3 onto fd 0, then `childRest`.
Returns the `err` result and the trace of steps performed. -/
def childCore (env : ChildEnv) : Option GoError × List ChildAct :=
  match env.decodeRes with
  | Except.error e => (some e, [ChildAct.decodeStdin])
  | Except.ok d =>
    match env.close0Res with
    | Except.error e => (some e, [ChildAct.decodeStdin, ChildAct.close0])
    | Except.ok _ =>
      match env.dup2Res with
      | Except.error e =>
          (some e, [ChildAct.decodeStdin, ChildAct.close0, ChildAct.dup2 3 0])
      | Except.ok _ =>
        ((childRest env d).1,
          [ChildAct.decodeStdin, ChildAct.close0, ChildAct.dup2 3 0]
          ++ (childRest env d).2)

/-- Result of one invocation of `child`: the returned error (`none` = nil),
the value of the package-level `initialized` flag afterwards, and the trace
of steps performed. -/
structure ChildResult where
  ret : Option GoError
  initialized : Bool
  acts : List ChildAct
deriving DecidableEq, Repr

/-- `child` (lines 217-262): if the package-level `initialized` flag is
already set, return `os.ErrInvalid` without doing anything; otherwise set the
flag (unconditionally, before the body, and the body never clears it) and run
the body. -/
def childRun (env : ChildEnv) (flag : Bool) : ChildResult :=
  if flag then { ret := some GoError.errInvalid, initialized := true, acts := [] }
  else { ret := (childCore env).1, initialized := true, acts := (childCore env).2 }

/-! Concrete fixtures used by counterexamples and witnesses. -/

/-- A concrete `/proc` view: the caller (pid 1) runs `/a/foo`; pid 5 and
pid 6 run `/b/foo`; pid 9 runs the caller's own binary; pid 7 runs
`/usr/bin/sed`; pid 8 runs a replaced binary `/bin/cat (deleted)`.  The pid
file `pf` and `/proc/5/stat` differ by 1000 seconds; `pf59` and
`/proc/6/stat` differ by 59 seconds.  `/proc/5/stat` has content whose comm
field is `foo`. -/
def fsA : ProcFS :=
  { readlink := fun p =>
      if p = "/proc/1/exe" then Except.ok "/a/foo"
      else if p = "/proc/5/exe" then Except.ok "/b/foo"
      else if p = "/proc/6/exe" then Except.ok "/b/foo"
      else if p = "/proc/9/exe" then Except.ok "/a/foo"
      else if p = "/proc/7/exe" then Except.ok "/usr/bin/sed"
      else if p = "/proc/8/exe" then Except.ok "/bin/cat (deleted)"
      else Except.error (GoError.ioErr "ENOENT")
  , statMTime := fun p =>
      if p = "pf" then Except.ok 0
      else if p = "/proc/5/stat" then Except.ok 1000
      else if p = "pf59" then Except.ok 100
      else if p = "/proc/6/stat" then Except.ok 41
      else Except.error (GoError.ioErr "ENOENT")
  , readFile := fun p =>
      if p = "/proc/5/stat" then Except.ok "5 (foo) R 1"
      else Except.error (GoError.ioErr "ENOENT")
  , myPid := 1 }

/-- A caller `Context` with every field empty/zero/none. -/
def ctx0 : Context :=
  { PidFileName := "", PidFilePerm := 0, LogFileName := "", LogFilePerm := 0
  , WorkDir := "", Chroot := "", Env := [], Args := [], Credential := none
  , Umask := 0, abspath := "", pidFile := none, logFile := none
  , nullFile := none, rpipe := none, wpipe := none }

/-- A parent-path environment in which every step succeeds (the spawned
handle is 42 and the encode succeeds). -/
def envAllOk : ParentEnv :=
  { execRes := Except.ok "/a/prog", nullRes := Except.ok ()
  , pidOpenRes := Except.ok (), pidLockRes := Except.ok ()
  , logRes := Except.ok (), pipeRes := Except.ok ()
  , startRes := Except.ok 42, encodeRes := none
  , environ := [], osArgs := [] }

/-- `envAllOk`, except that opening the null device fails. -/
def envNullFail : ParentEnv :=
  { envAllOk with nullRes := Except.error (GoError.ioErr "devnull") }

/-- A caller `Context` with non-empty `Env` but empty `Args` and zero
permissions (exercising the defaulting steps of the parent path). -/
def ctxEmptyArgs : Context :=
  { ctx0 with PidFileName := "p.pid", Env := ["A=1"] }

/-- A caller `Context` with every declarative field explicitly supplied
(non-empty `Args`/`Env`, non-zero permissions). -/
def ctxFull : Context :=
  { PidFileName := "p.pid", PidFilePerm := 0o600, LogFileName := "l.log"
  , LogFilePerm := 0o644, WorkDir := "/w", Chroot := "/r"
  , Env := ["A=1", "B=2"], Args := ["prog", "-d"]
  , Credential := some { Uid := 7, Gid := 5, Groups := [9], NoSetGroups := false }
  , Umask := 18, abspath := "", pidFile := none, logFile := none
  , nullFile := none, rpipe := none, wpipe := none }

/-- The context the child decodes in the witness runs: a pid file is
configured and a credential with uid 7 and gid 5 is set. -/
def dDec : Context :=
  { ctx0 with PidFileName := "p.pid"
            , Credential := some { Uid := 7, Gid := 5, Groups := [], NoSetGroups := false } }

/-- A child-path environment in which every step succeeds and the decode
yields `dDec`. -/
def cenvOk : ChildEnv :=
  { decodeRes := Except.ok dDec, close0Res := Except.ok ()
  , dup2Res := Except.ok (), writePidRes := Except.ok ()
  , chrootRes := Except.ok (), setgidRes := Except.ok ()
  , setuidRes := Except.ok () }

end GoDaemon

namespace GoDaemon

/-- C1 counterexample: at the concrete `/proc` view `fsA`, pid 5 (`/b/foo`,
comm `foo`) with hint `pf`: the algorithm the specification describes (first
compare the status-file short name `foo` against the base name of the
caller's `/a/foo`) reports running, while `IsProcessRunning` as written in
`util_posix.go` (which performs no such comparison and goes directly to the
time heuristic, here failing with a 1000-second gap) reports not running. -/
theorem status_comm_fallback_missing_cex :
    IsProcessRunningSpec fsA 5 ["pf"] = true ∧ IsProcessRunning fsA 5 ["pf"] = false :=
  ⟨rfl, rfl⟩

/-- C1 (amended): when a pid-file hint is supplied and the primary check is
inconclusive because the resolved executable paths differ, `IsProcessRunning`
proceeds directly to the time heuristic on the first hint; no process-status
short-name comparison is performed. -/
theorem fallback_goes_directly_to_time_heuristic (fs : ProcFS) (pid : Nat)
    (pf : String) (rest : List String) (mp ep : String)
    (hmy : GetExecPath fs fs.myPid = Except.ok mp)
    (hexe : GetExecPath fs pid = Except.ok ep)
    (hne : mp ≠ ep) :
    IsProcessRunning fs pid (pf :: rest) = timeHeuristic fs pid pf := by
  simp [IsProcessRunning, hmy, hexe, hne]

/-- Witness for the amended C1 at the concrete view `fsA`. -/
theorem fallback_goes_directly_to_time_heuristic_witness :
    IsProcessRunning fsA 5 ["pf"] = timeHeuristic fsA 5 "pf" :=
  fallback_goes_directly_to_time_heuristic fsA 5 "pf" [] "/a/foo" "/b/foo"
    rfl rfl (by decide)

/-- C2 (code bug): `GetExecPath` uses `strings.TrimRight(link_target,
" (deleted)")`, whose second argument is a character SET, not a suffix.  A
link target `/usr/bin/sed` that does not end in the deleted-file marker is
nevertheless mangled to `/usr/bin/s`, and even the intended case
`/bin/cat (deleted)` is over-stripped to `/bin/ca` instead of `/bin/cat`. -/
theorem trimRight_cutset_mangles_path :
    GetExecPath fsA 7 = Except.ok "/usr/bin/s"
    ∧ GetExecPath fsA 8 = Except.ok "/bin/ca"
    ∧ "/usr/bin/s" ≠ "/usr/bin/sed" ∧ "/bin/ca" ≠ "/bin/cat" :=
  ⟨rfl, rfl, by decide, by decide⟩

/-- C4: `IsProcessRunning` is fail-closed: an unreadable executable link of
the target pid yields false; equal resolved paths yield true (in particular
for the caller's own pid); a mismatch with no hint yields false; and in the
fallback an unreadable pid-file hint or status pseudo-file yields false. -/
theorem isProcessRunning_fail_closed (fs : ProcFS) (pid : Nat) (pfs : List String) :
    (∀ e, GetExecPath fs pid = Except.error e → IsProcessRunning fs pid pfs = false)
    ∧ (∀ p, GetExecPath fs fs.myPid = Except.ok p → GetExecPath fs pid = Except.ok p →
        IsProcessRunning fs pid pfs = true)
    ∧ (∀ p, GetExecPath fs fs.myPid = Except.ok p →
        IsProcessRunning fs fs.myPid pfs = true)
    ∧ (∀ p q, GetExecPath fs fs.myPid = Except.ok p → GetExecPath fs pid = Except.ok q →
        p ≠ q → IsProcessRunning fs pid [] = false)
    ∧ (∀ p q e pf rest, GetExecPath fs fs.myPid = Except.ok p →
        GetExecPath fs pid = Except.ok q → p ≠ q →
        fs.statMTime pf = Except.error e →
        IsProcessRunning fs pid (pf :: rest) = false)
    ∧ (∀ p q e pf rest t, GetExecPath fs fs.myPid = Except.ok p →
        GetExecPath fs pid = Except.ok q → p ≠ q →
        fs.statMTime pf = Except.ok t →
        fs.statMTime (procStatPath pid) = Except.error e →
        IsProcessRunning fs pid (pf :: rest) = false) := by
  refine ⟨?_, ?_, ?_, ?_, ?_, ?_⟩
  · intro e h
    cases hmy : GetExecPath fs fs.myPid <;> simp [IsProcessRunning, hmy, h]
  · intro p h1 h2
    simp [IsProcessRunning, h1, h2]
  · intro p h1
    simp [IsProcessRunning, h1]
  · intro p q h1 h2 hne
    simp [IsProcessRunning, h1, h2, hne]
  · intro p q e pf rest h1 h2 hne h3
    simp [IsProcessRunning, timeHeuristic, h1, h2, hne, h3]
  · intro p q e pf rest t h1 h2 hne h3 h4
    simp [IsProcessRunning, timeHeuristic, h1, h2, hne, h3, h4]

/-- Witness for C4 at the concrete view `fsA`: pid 9 resolves to the
caller's own `/a/foo` and is reported running; pid 5 resolves elsewhere and
with no hint is reported not running. -/
theorem isProcessRunning_fail_closed_witness :
    IsProcessRunning fsA 9 [] = true ∧ IsProcessRunning fsA 5 [] = false :=
  ⟨(isProcessRunning_fail_closed fsA 9 []).2.1 "/a/foo" rfl rfl,
   (isProcessRunning_fail_closed fsA 5 []).2.2.2.1 "/a/foo" "/b/foo" rfl rfl (by decide)⟩

/-- C5: in the time-heuristic fallback (hint supplied, paths mismatched,
both stats readable) an absolute difference of 59 seconds yields running, 61
seconds yields not running, and the tolerance is strictly 60 seconds: 60
itself yields not running, and the result is running exactly when the
absolute difference is below 60. -/
theorem time_tolerance_strict_60 (fs : ProcFS) (pid : Nat) (pf : String)
    (rest : List String) (mp ep : String) (t1 t2 : Int)
    (hmy : GetExecPath fs fs.myPid = Except.ok mp)
    (hexe : GetExecPath fs pid = Except.ok ep)
    (hne : mp ≠ ep)
    (h1 : fs.statMTime pf = Except.ok t1)
    (h2 : fs.statMTime (procStatPath pid) = Except.ok t2) :
    ((t1 - t2).natAbs = 59 → IsProcessRunning fs pid (pf :: rest) = true)
    ∧ ((t1 - t2).natAbs = 61 → IsProcessRunning fs pid (pf :: rest) = false)
    ∧ ((t1 - t2).natAbs = 60 → IsProcessRunning fs pid (pf :: rest) = false)
    ∧ (IsProcessRunning fs pid (pf :: rest) = true ↔ (t1 - t2).natAbs < 60) := by
  have hrun : IsProcessRunning fs pid (pf :: rest)
      = decide ((t1 - t2).natAbs < 60) := by
    simp [IsProcessRunning, timeHeuristic, hmy, hexe, hne, h1, h2]
  refine ⟨?_, ?_, ?_, ?_⟩
  · intro h; rw [hrun, h]; decide
  · intro h; rw [hrun, h]; decide
  · intro h; rw [hrun, h]; decide
  · rw [hrun]; exact decide_eq_true_iff

/-- Witness for C5 at the concrete view `fsA`: pid 6 with hint `pf59`
(modification times 100 and 41, a 59-second gap) is reported running. -/
theorem time_tolerance_strict_60_witness :
    IsProcessRunning fsA 6 ["pf59"] = true :=
  (time_tolerance_strict_60 fsA 6 "pf59" [] "/a/foo" "/b/foo" 100 41
    rfl rfl (by decide) rfl rfl).1 (by decide)

/-- C3 counterexample: in an environment where opening the null device fails
(every other step would succeed), `parent` does not return the error to its
caller — it panics (the deferred `closeFiles` having run), contradicting the
claim that every step failure is surfaced as a returned error and not by
terminating the process. -/
theorem parent_step_failure_panics_cex :
    parentRun envNullFail ctx0 = ParentOutcome.panicked (GoError.ioErr "devnull") true false :=
  rfl

/-- C3 (amended): on the parent path every step failure aborts the remaining
steps, but failures of environment preparation, of opening the null device /
pid file / lock / log file / pipe, and of the spawn abort by PANIC, not by a
returned error (resources already opened are still released by the deferred
`closeFiles`, and a spawn failure first removes the pid file when one was
opened); only a failure of the handoff encode is returned as an error, and
on success `parent` returns the non-nil spawned handle together with the
encode result. -/
theorem parent_outcomes (env : ParentEnv) (d : Context) :
    (∀ e, env.execRes = Except.error e →
        parentRun env d = ParentOutcome.panicked e false false)
    ∧ (∀ ap e, env.execRes = Except.ok ap → env.nullRes = Except.error e →
        parentRun env d = ParentOutcome.panicked e true false)
    ∧ (∀ ap e, env.execRes = Except.ok ap → env.nullRes = Except.ok () →
        d.PidFileName ≠ "" → env.pidOpenRes = Except.error e →
        parentRun env d = ParentOutcome.panicked e true false)
    ∧ (∀ ap e, env.execRes = Except.ok ap → env.nullRes = Except.ok () →
        d.PidFileName ≠ "" → env.pidOpenRes = Except.ok () →
        env.pidLockRes = Except.error e →
        parentRun env d = ParentOutcome.panicked e true false)
    ∧ (∀ ap e, env.execRes = Except.ok ap → env.nullRes = Except.ok () →
        env.pidOpenRes = Except.ok () → env.pidLockRes = Except.ok () →
        d.LogFileName ≠ "" → env.logRes = Except.error e →
        parentRun env d = ParentOutcome.panicked e true false)
    ∧ (∀ ap e, env.execRes = Except.ok ap → env.nullRes = Except.ok () →
        env.pidOpenRes = Except.ok () → env.pidLockRes = Except.ok () →
        env.logRes = Except.ok () → env.pipeRes = Except.error e →
        parentRun env d = ParentOutcome.panicked e true false)
    ∧ (∀ ap e, env.execRes = Except.ok ap → env.nullRes = Except.ok () →
        env.pidOpenRes = Except.ok () → env.pidLockRes = Except.ok () →
        env.logRes = Except.ok () → env.pipeRes = Except.ok () →
        env.startRes = Except.error e →
        parentRun env d
          = ParentOutcome.panicked e true (if d.PidFileName = "" then false else true))
    ∧ (∀ ap h, env.execRes = Except.ok ap → env.nullRes = Except.ok () →
        env.pidOpenRes = Except.ok () → env.pidLockRes = Except.ok () →
        env.logRes = Except.ok () → env.pipeRes = Except.ok () →
        env.startRes = Except.ok h →
        parentRun env d = ParentOutcome.returned (some h) env.encodeRes true) := by
  refine ⟨?_, ?_, ?_, ?_, ?_, ?_, ?_, ?_⟩
  · intro e h1; simp [parentRun, h1]
  · intro ap e h1 h2; simp [parentRun, h1, h2]
  · intro ap e h1 h2 hp h3; simp [parentRun, h1, h2, hp, h3]
  · intro ap e h1 h2 hp h3 h4; simp [parentRun, h1, h2, hp, h3, h4]
  · intro ap e h1 h2 h3 h4 hl h5; simp [parentRun, h1, h2, h3, h4, hl, h5]
  · intro ap e h1 h2 h3 h4 h5 h6; simp [parentRun, h1, h2, h3, h4, h5, h6]
  · intro ap e h1 h2 h3 h4 h5 h6 h7; simp [parentRun, h1, h2, h3, h4, h5, h6, h7]
  · intro ap h h1 h2 h3 h4 h5 h6 h7; simp [parentRun, h1, h2, h3, h4, h5, h6, h7]

/-- Witness for the amended C3: with every step succeeding, `parent` returns
the non-nil handle 42 and no error. -/
theorem parent_outcomes_witness :
    parentRun envAllOk ctx0 = ParentOutcome.returned (some 42) none true :=
  (parent_outcomes envAllOk ctx0).2.2.2.2.2.2.2 "/a/prog" 42 rfl rfl rfl rfl rfl rfl rfl

/-- C6 counterexample: for the caller context `ctxEmptyArgs` (empty `Args`,
zero pid-file permission), the parent-side handoff (prepare environment,
default permissions, encode) followed by the child-side decode does NOT
reproduce the declarative fields with only the detachment marker appended to
the environment: the decoded `Args` is the parent's `os.Args` `["prog"]`
instead of the original `[]`, and the decoded pid-file permission is the
default `0640` instead of `0`. -/
theorem handoff_roundtrip_cex :
    ¬ (declOf (decodeWire (parentHandoff ["prog"] ["E=2"] "/x/prog" ctxEmptyArgs) ctx0)
        = { declOf ctxEmptyArgs with Env := ctxEmptyArgs.Env ++ [markString] }) := by
  decide

/-- C6 (amended): for every `DaemonContext` whose `Args` and `Env` are
non-empty and whose pid-file and log-file permissions are non-zero,
serializing the declarative fields as the parent's handoff write does and
decoding the result as the child does reproduces byte-identical values for
every declarative field, except that the environment additionally carries
the appended detachment marker.  (Empty `Args`/`Env` are first defaulted to
the parent's own arguments/environment and zero permissions to `0640` before
serialization, so for those the round trip is not the identity.) -/
theorem handoff_roundtrip_amended (osArgs environ : List String) (ap : String)
    (d dc : Context)
    (hA : d.Args ≠ []) (hE : d.Env ≠ [])
    (hP : d.PidFilePerm ≠ 0) (hL : d.LogFilePerm ≠ 0) :
    declOf (decodeWire (parentHandoff osArgs environ ap d) dc)
      = { declOf d with Env := d.Env ++ [markString] } := by
  simp [parentHandoff, prepareEnvFields, openFilesPerms, encodeWire, decodeWire,
    declOf, hA, hE, hP, hL]

/-- Witness for the amended C6 at the fully-specified context `ctxFull`. -/
theorem handoff_roundtrip_amended_witness :
    declOf (decodeWire (parentHandoff ["p0"] ["E=2"] "/x/prog" ctxFull) ctx0)
      = { declOf ctxFull with Env := ctxFull.Env ++ [markString] } :=
  handoff_roundtrip_amended ["p0"] ["E=2"] "/x/prog" ctxFull ctx0
    (by decide) (by decide) (by decide) (by decide)

/-- C7: the wire form of the handoff message is a function of the
declarative configuration fields only — two contexts that differ only in the
transient fields (`abspath`, `pidFile`, `logFile`, `nullFile`, `rpipe`,
`wpipe`) encode identically, and the encoding is exactly the declarative
projection, so no transient field ever appears on the wire. -/
theorem wire_only_declarative (d : Context) (a : String)
    (pf lf nf rp wp : Option Nat) :
    encodeWire { d with abspath := a, pidFile := pf, logFile := lf
                      , nullFile := nf, rpipe := rp, wpipe := wp }
      = encodeWire d
    ∧ encodeWire d = declOf d :=
  ⟨rfl, rfl⟩

/-- After any invocation of `child`, the process-wide `initialized` flag is
true: the guard leaves it true, and a first invocation sets it before the
body and the body never clears it. -/
theorem childRun_initialized (env : ChildEnv) (b : Bool) :
    (childRun env b).initialized = true := by
  cases b <;> rfl

/-- C8: on a second (or later) invocation of the child path within one
process image — that is, with the `initialized` flag left by any previous
invocation — `child` fails with `os.ErrInvalid` and performs none of the
decode / descriptor-rewire / pid-file / umask / chroot / credential steps. -/
theorem child_second_invocation_rejected (env1 env2 : ChildEnv) (b : Bool) :
    childRun env2 ((childRun env1 b).initialized)
      = { ret := some GoError.errInvalid, initialized := true, acts := [] } := by
  rw [childRun_initialized]
  rfl

/-- C10: the `initialized` flag is true after every invocation of the child
path — including a first invocation that fails at any step, since the flag
is set before the body and never reset — so a failed child initialization
can never be retried in-process: every subsequent invocation returns the
invalid-operation error and performs no step. -/
theorem initialized_flag_sticky (env : ChildEnv) (b : Bool) :
    (childRun env b).initialized = true
    ∧ (∀ env2 : ChildEnv,
        (childRun env2 ((childRun env b).initialized)).ret = some GoError.errInvalid
        ∧ (childRun env2 ((childRun env b).initialized)).acts = []) := by
  refine ⟨childRun_initialized env b, fun env2 => ?_⟩
  rw [childRun_initialized]
  exact ⟨rfl, rfl⟩

/-- The set-gid/set-uid steps never occur in a list of child actions. -/
def noCredActs (l : List ChildAct) : Prop :=
  (∀ g, ChildAct.setgid g ∉ l) ∧ (∀ u, ChildAct.setuid u ∉ l)

theorem noCredActs_nil : noCredActs [] :=
  ⟨fun g => by simp, fun u => by simp⟩

theorem noCredActs_append {l1 l2 : List ChildAct}
    (h1 : noCredActs l1) (h2 : noCredActs l2) : noCredActs (l1 ++ l2) := by
  refine ⟨fun g hg => ?_, fun u hu => ?_⟩
  · rcases List.mem_append.mp hg with h | h
    exacts [h1.1 g h, h2.1 g h]
  · rcases List.mem_append.mp hu with h | h
    exacts [h1.2 u h, h2.2 u h]

theorem pidStage_noCred (d : Context) (r : Except GoError Unit) :
    noCredActs (pidStage d r).2 := by
  unfold pidStage
  split
  · exact noCredActs_nil
  · cases r <;> exact ⟨fun g => by simp, fun u => by simp⟩

theorem umaskActs_noCred (d : Context) : noCredActs (umaskActs d) := by
  unfold umaskActs
  split
  · exact noCredActs_nil
  · exact ⟨fun g => by simp, fun u => by simp⟩

theorem chrootStage_noCred (d : Context) (r : Except GoError Unit) :
    noCredActs (chrootStage d r).2 := by
  unfold chrootStage
  split
  · exact noCredActs_nil
  · cases r <;> exact ⟨fun g => by simp, fun u => by simp⟩

/-- The credential step emits one of four traces: nothing, a single non-zero
set-gid, a single non-zero set-uid, or a non-zero set-gid followed by a
non-zero set-uid. -/
theorem credStage_shape (c : Option Credential) (errIn : Option GoError)
    (gr ur : Except GoError Unit) :
    (credStage c errIn gr ur).2 = []
    ∨ (∃ g, 0 < g ∧ (credStage c errIn gr ur).2 = [ChildAct.setgid g])
    ∨ (∃ u, 0 < u ∧ (credStage c errIn gr ur).2 = [ChildAct.setuid u])
    ∨ (∃ g u, 0 < g ∧ 0 < u ∧
        (credStage c errIn gr ur).2 = [ChildAct.setgid g, ChildAct.setuid u]) := by
  cases c with
  | none => exact Or.inl rfl
  | some c =>
    by_cases hg : 0 < c.Gid
    · cases gr with
      | error e =>
        exact Or.inr (Or.inl ⟨c.Gid, hg, by simp [credStage, hg]⟩)
      | ok _ =>
        by_cases hu : 0 < c.Uid
        · cases ur with
          | error e =>
            exact Or.inr (Or.inr (Or.inr ⟨c.Gid, c.Uid, hg, hu, by simp [credStage, hg, hu]⟩))
          | ok _ =>
            exact Or.inr (Or.inr (Or.inr ⟨c.Gid, c.Uid, hg, hu, by simp [credStage, hg, hu]⟩))
        · exact Or.inr (Or.inl ⟨c.Gid, hg, by simp [credStage, hg, hu]⟩)
    · by_cases hu : 0 < c.Uid
      · cases ur with
        | error e =>
          exact Or.inr (Or.inr (Or.inl ⟨c.Uid, hu, by simp [credStage, hg, hu]⟩))
        | ok _ =>
          exact Or.inr (Or.inr (Or.inl ⟨c.Uid, hu, by simp [credStage, hg, hu]⟩))
      · exact Or.inl (by simp [credStage, hg, hu])

/-- With a configured credential whose gid and uid are both non-zero and a
successful set-gid, the credential step's trace is exactly set-gid followed
by set-uid. -/
theorem credStage_pos (c : Credential) (errIn : Option GoError)
    (ur : Except GoError Unit) (hg : 0 < c.Gid) (hu : 0 < c.Uid) :
    (credStage (some c) errIn (Except.ok ()) ur).2
      = [ChildAct.setgid c.Gid, ChildAct.setuid c.Uid] := by
  cases ur <;> simp [credStage, hg, hu]

/-- The trace of `childRest` is a credential-free prefix followed by one of
the four credential-step shapes. -/
theorem childRest_acts_shape (env : ChildEnv) (d : Context) :
    ∃ pre, noCredActs pre ∧
      ((childRest env d).2 = pre
       ∨ (∃ g, 0 < g ∧ (childRest env d).2 = pre ++ [ChildAct.setgid g])
       ∨ (∃ u, 0 < u ∧ (childRest env d).2 = pre ++ [ChildAct.setuid u])
       ∨ (∃ g u, 0 < g ∧ 0 < u ∧
           (childRest env d).2 = pre ++ [ChildAct.setgid g, ChildAct.setuid u])) := by
  unfold childRest
  cases hps : pidStage d env.writePidRes with
  | mk fst pacts =>
    have hp : noCredActs pacts := by
      have h := pidStage_noCred d env.writePidRes
      rw [hps] at h
      exact h
    cases fst with
    | some e => exact ⟨pacts, hp, Or.inl rfl⟩
    | none =>
      refine ⟨pacts ++ umaskActs d ++ (chrootStage d env.chrootRes).2,
        noCredActs_append (noCredActs_append hp (umaskActs_noCred d))
          (chrootStage_noCred d env.chrootRes), ?_⟩
      rcases credStage_shape d.Credential (chrootStage d env.chrootRes).1
        env.setgidRes env.setuidRes with h | ⟨g, hg, h⟩ | ⟨u, hu, h⟩ | ⟨g, u, hg, hu, h⟩
      · exact Or.inl (by simp [h])
      · exact Or.inr (Or.inl ⟨g, hg, by rw [h]⟩)
      · exact Or.inr (Or.inr (Or.inl ⟨u, hu, by rw [h]⟩))
      · exact Or.inr (Or.inr (Or.inr ⟨g, u, hg, hu, by rw [h]⟩))

/-- The trace of the child body is a credential-free prefix followed by one
of the four credential-step shapes. -/
theorem childCore_acts_shape (env : ChildEnv) :
    ∃ pre, noCredActs pre ∧
      ((childCore env).2 = pre
       ∨ (∃ g, 0 < g ∧ (childCore env).2 = pre ++ [ChildAct.setgid g])
       ∨ (∃ u, 0 < u ∧ (childCore env).2 = pre ++ [ChildAct.setuid u])
       ∨ (∃ g u, 0 < g ∧ 0 < u ∧
           (childCore env).2 = pre ++ [ChildAct.setgid g, ChildAct.setuid u])) := by
  cases hd : env.decodeRes with
  | error e =>
    have hc : (childCore env).2 = [ChildAct.decodeStdin] := by
      unfold childCore; rw [hd]
    exact ⟨[ChildAct.decodeStdin], ⟨fun g => by simp, fun u => by simp⟩, Or.inl hc⟩
  | ok d =>
    cases h0 : env.close0Res with
    | error e =>
      have hc : (childCore env).2 = [ChildAct.decodeStdin, ChildAct.close0] := by
        unfold childCore; rw [hd, h0]
      exact ⟨[ChildAct.decodeStdin, ChildAct.close0],
        ⟨fun g => by simp, fun u => by simp⟩, Or.inl hc⟩
    | ok u0 =>
      cases h2 : env.dup2Res with
      | error e =>
        have hc : (childCore env).2
            = [ChildAct.decodeStdin, ChildAct.close0, ChildAct.dup2 3 0] := by
          unfold childCore; rw [hd, h0, h2]
        exact ⟨[ChildAct.decodeStdin, ChildAct.close0, ChildAct.dup2 3 0],
          ⟨fun g => by simp, fun u => by simp⟩, Or.inl hc⟩
      | ok u2 =>
        have hc : (childCore env).2
            = [ChildAct.decodeStdin, ChildAct.close0, ChildAct.dup2 3 0]
              ++ (childRest env d).2 := by
          unfold childCore; rw [hd, h0, h2]
        obtain ⟨p2, hno, hsh⟩ := childRest_acts_shape env d
        refine ⟨[ChildAct.decodeStdin, ChildAct.close0, ChildAct.dup2 3 0] ++ p2,
          noCredActs_append ⟨fun g => by simp, fun u => by simp⟩ hno, ?_⟩
        rcases hsh with h | ⟨g, hg, h⟩ | ⟨u, hu, h⟩ | ⟨g, u, hg, hu, h⟩
        · exact Or.inl (by rw [hc, h])
        · exact Or.inr (Or.inl ⟨g, hg, by rw [hc, h]; simp [List.append_assoc]⟩)
        · exact Or.inr (Or.inr (Or.inl ⟨u, hu, by rw [hc, h]; simp [List.append_assoc]⟩))
        · exact Or.inr (Or.inr (Or.inr ⟨g, u, hg, hu,
            by rw [hc, h]; simp [List.append_assoc]⟩))

/-- C9: in the child path's trace of performed steps, set-gid and set-uid
are only ever invoked with non-zero values (a configured uid or gid of zero
is skipped), every trace is a credential-free prefix followed by at most one
set-gid and then at most one set-uid (so the group id is applied strictly
before the user id); and positively, when the decode succeeds with a
credential whose gid and uid are both non-zero, the preceding steps succeed
and set-gid succeeds, the trace ends exactly with set-gid followed by
set-uid. -/
theorem cred_gid_before_uid_nonzero_only (env : ChildEnv) (b : Bool) :
    (∃ pre, noCredActs pre ∧
      ((childRun env b).acts = pre
       ∨ (∃ g, 0 < g ∧ (childRun env b).acts = pre ++ [ChildAct.setgid g])
       ∨ (∃ u, 0 < u ∧ (childRun env b).acts = pre ++ [ChildAct.setuid u])
       ∨ (∃ g u, 0 < g ∧ 0 < u ∧
           (childRun env b).acts = pre ++ [ChildAct.setgid g, ChildAct.setuid u])))
    ∧ (∀ d c, b = false → env.decodeRes = Except.ok d →
        env.close0Res = Except.ok () → env.dup2Res = Except.ok () →
        (pidStage d env.writePidRes).1 = none →
        d.Credential = some c → 0 < c.Gid → 0 < c.Uid →
        env.setgidRes = Except.ok () →
        ∃ pre, (childRun env b).acts
          = pre ++ [ChildAct.setgid c.Gid, ChildAct.setuid c.Uid]) := by
  constructor
  · cases b
    · exact childCore_acts_shape env
    · exact ⟨[], noCredActs_nil, Or.inl rfl⟩
  · intro d c hb hd h0 h2 hpw hc hg hu hgr
    subst hb
    have hcc : (childRun env false).acts
        = [ChildAct.decodeStdin, ChildAct.close0, ChildAct.dup2 3 0]
          ++ (childRest env d).2 := by
      show (childCore env).2 = _
      unfold childCore; rw [hd, h0, h2]
    have hr : (childRest env d).2
        = (pidStage d env.writePidRes).2 ++ umaskActs d
          ++ (chrootStage d env.chrootRes).2
          ++ [ChildAct.setgid c.Gid, ChildAct.setuid c.Uid] := by
      unfold childRest
      cases hps : pidStage d env.writePidRes with
      | mk fst pacts =>
        rw [hps] at hpw
        cases fst with
        | some e => simp at hpw
        | none =>
          rw [hc, hgr, credStage_pos c _ env.setuidRes hg hu]
    refine ⟨[ChildAct.decodeStdin, ChildAct.close0, ChildAct.dup2 3 0]
      ++ (pidStage d env.writePidRes).2 ++ umaskActs d
      ++ (chrootStage d env.chrootRes).2, ?_⟩
    rw [hcc, hr]
    simp [List.append_assoc]

/-- Witness for C9: a child environment in which every step succeeds and the
decoded context carries credential `{Uid := 7, Gid := 5}` produces a trace
ending exactly with set-gid 5 followed by set-uid 7. -/
theorem cred_gid_before_uid_nonzero_only_witness :
    ∃ pre, (childRun cenvOk false).acts
      = pre ++ [ChildAct.setgid 5, ChildAct.setuid 7] :=
  (cred_gid_before_uid_nonzero_only cenvOk false).2 dDec
    { Uid := 7, Gid := 5, Groups := [], NoSetGroups := false }
    rfl rfl rfl rfl rfl rfl (by decide) (by decide) rfl

end GoDaemon
